import Mathlib

/-!
# PulseCompass ranking engine — verification development

Shallow embedding of the core Ranking & Classification Engine of the
PulseCompass repository:

* `backend/routers/ranking.py` — philosophy weight tables, sector detection,
  normalization, quality / cash-flow / valuation multipliers, risk penalties,
  disqualification gate, composite scoring and the `analyze` orchestration;
* `backend/utils/investment_tiers.py` — the four-tier classifier;
* `backend/utils/sector_adjustments.py` — sector benchmarks and score adjustment.

Modelling conventions:

* Python floats are embedded as `ℚ`; `round(x, 1)` becomes banker's rounding
  over `ℚ` (`round1`).
* A pandas cell that may be absent is `Option ℚ`.  After the preprocessing
  step (`fillTable`) a metric field of a row is `some v` exactly when the
  corresponding column exists in the uploaded table, matching the pandas
  invariant that column presence is table-wide and that every remaining cell
  of a present numeric column carries a number (missing cells are filled with
  the column median, or 0 when the whole column is missing).
* The Banking/NBFC mapping `data/nbfc_bank.json` is data loaded at import
  time (already lower-cased and stripped by the loader); it is passed to the
  functions as the explicit parameters `finNames`, `finSymbols`
  (`[]` when the file is unavailable, which is the loader's fallback).
* Disqualification reasons are Python f-strings; they are embedded as the
  inductive `DQReason`, which records which rule fired together with the
  numeric payloads interpolated into the message.
* Columns of the upload that no scoring, penalty, disqualification, tier or
  sector function ever reads (`cmp`, `sales`, `eps`, `return_3yr`,
  `return_5yr`, `npm`, `interest_coverage`, `current_ratio`,
  `dividend_payout`, `fcf_yield_inverse`, `pledged_pct`, `promoter_holding`)
  are omitted: they only produce inert normalized columns.  Display-only
  annotation strings (key drivers, ranking reasons, insights, warnings, the
  philosophy descriptions, tier statistics, the portfolio-recommendation
  text) and the side score columns that never influence ordering,
  membership, tiers or disqualification (the fixed buffett/lynch/growth
  scores and the v2 sub-scores) are likewise omitted from the report; the
  division by the survivor count inside the portfolio recommendation is
  kept, because it can raise.
-/

namespace PulseCompass

/-! ## Python-style primitives -/

/-- Banker's rounding of a rational to the nearest integer, the semantics of
Python's builtin `round` (ties go to the even integer). -/
def pyRoundInt (q : ℚ) : ℤ :=
  let n := q.floor
  let r := q - (n : ℚ)
  if r < 1/2 then n
  else if 1/2 < r then n + 1
  else if n % 2 = 0 then n else n + 1

/-- Python `round(x, 1)`: round to one decimal place. -/
def round1 (q : ℚ) : ℚ := (pyRoundInt (10 * q) : ℚ) / 10

/-- Python's builtin `min` on two numbers (kept explicit so that it reduces
in the kernel). -/
def pyMin (a b : ℚ) : ℚ := if a ≤ b then a else b

/-- Python's builtin `max` on two numbers. -/
def pyMax (a b : ℚ) : ℚ := if a ≤ b then b else a

/-- Python's builtin `abs`. -/
def pyAbs (q : ℚ) : ℚ := if q < 0 then -q else q

theorem pyMin_le_left (a b : ℚ) : pyMin a b ≤ a := by
  unfold pyMin; split_ifs with h
  · exact le_refl a
  · exact le_of_not_le h

theorem pyMin_le_right (a b : ℚ) : pyMin a b ≤ b := by
  unfold pyMin; split_ifs with h
  · exact h
  · exact le_refl b

theorem pyMin_eq_right {a b : ℚ} (h : b ≤ a) : pyMin a b = b := by
  unfold pyMin; split_ifs with h2
  · exact le_antisymm h2 h
  · rfl

theorem le_pyMax_left (a b : ℚ) : a ≤ pyMax a b := by
  unfold pyMax; split_ifs with h
  · exact h
  · exact le_refl a

theorem pyMax_le {a b c : ℚ} (h1 : a ≤ c) (h2 : b ≤ c) : pyMax a b ≤ c := by
  unfold pyMax; split_ifs <;> assumption

/-- `decide` a decidable predicate under an `Option`, `false` on `none`.
Embeds the Python idiom `'m' in row and p(row['m'])`. -/
def testO (o : Option ℚ) (p : ℚ → Prop) [DecidablePred p] : Bool :=
  match o with
  | some v => decide (p v)
  | none => false

/-! ## ASCII string helpers (Python `.lower()`, `.strip()`, `in`)

The engine only ever lower-cases and substring-searches company names and
symbols, which are ASCII in this data set; we model the string operations
structurally over `List Char` so that they reduce in the kernel. -/

/-- ASCII lower-casing of one character (Python `str.lower` restricted to
ASCII input). -/
def lowerChar (c : Char) : Char :=
  if 'A' ≤ c ∧ c ≤ 'Z' then Char.ofNat (c.toNat + 32) else c

/-- Python `s.lower()` as a character list. -/
def lowerStr (s : String) : List Char := s.data.map lowerChar

/-- Does the pattern (second argument) occur at the head of the list? -/
def startsWithCL : List Char → List Char → Bool
  | _, [] => true
  | [], _ :: _ => false
  | c :: cs, p :: ps => c == p && startsWithCL cs ps

/-- Python `pat in s` (substring containment) over character lists. -/
def containsCL : List Char → List Char → Bool
  | [], pat => pat.isEmpty
  | c :: cs, pat => startsWithCL (c :: cs) pat || containsCL cs pat

/-- Python `s.strip()` over a character list. -/
def trimCL (l : List Char) : List Char :=
  ((l.dropWhile Char.isWhitespace).reverse.dropWhile Char.isWhitespace).reverse

/-- Python `str(x).strip().lower()`. -/
def pyStripLower (s : String) : List Char := (trimCL s.data).map lowerChar

/-! ## Data model -/

/-- The metric columns of the upload that the engine's scoring, penalty,
disqualification, sector and tier rules consume (the modelled subset of
`numeric_cols` in `ranking.py`, in source order). -/
inductive Metric
  | market_cap | pe_ratio | roe | roce
  | sales_growth_3yr | sales_growth_5yr | pat
  | profit_growth_3yr | profit_growth_5yr
  | fcf_3yr | fcf_5yr | fcf | peg | return_1yr
  | asset_turnover | cmp_sales
  | eps_growth_3yr | eps_growth_5yr
  | debt_equity | opm | dividend_yield
  | pb_ratio | ev_ebitda
  deriving DecidableEq

/-- One company row.  A metric field is `some v` when the column is present
in the table (after preprocessing) and `none` when the column is absent. -/
structure Row where
  name : String
  symbol : String
  market_cap : Option ℚ := none
  pe_ratio : Option ℚ := none
  roe : Option ℚ := none
  roce : Option ℚ := none
  sales_growth_3yr : Option ℚ := none
  sales_growth_5yr : Option ℚ := none
  pat : Option ℚ := none
  profit_growth_3yr : Option ℚ := none
  profit_growth_5yr : Option ℚ := none
  fcf_3yr : Option ℚ := none
  fcf_5yr : Option ℚ := none
  fcf : Option ℚ := none
  peg : Option ℚ := none
  return_1yr : Option ℚ := none
  asset_turnover : Option ℚ := none
  cmp_sales : Option ℚ := none
  eps_growth_3yr : Option ℚ := none
  eps_growth_5yr : Option ℚ := none
  debt_equity : Option ℚ := none
  opm : Option ℚ := none
  dividend_yield : Option ℚ := none
  pb_ratio : Option ℚ := none
  ev_ebitda : Option ℚ := none
  deriving DecidableEq

/-- Field access by metric name (`row['m']`). -/
def Row.get (r : Row) : Metric → Option ℚ
  | .market_cap => r.market_cap
  | .pe_ratio => r.pe_ratio
  | .roe => r.roe
  | .roce => r.roce
  | .sales_growth_3yr => r.sales_growth_3yr
  | .sales_growth_5yr => r.sales_growth_5yr
  | .pat => r.pat
  | .profit_growth_3yr => r.profit_growth_3yr
  | .profit_growth_5yr => r.profit_growth_5yr
  | .fcf_3yr => r.fcf_3yr
  | .fcf_5yr => r.fcf_5yr
  | .fcf => r.fcf
  | .peg => r.peg
  | .return_1yr => r.return_1yr
  | .asset_turnover => r.asset_turnover
  | .cmp_sales => r.cmp_sales
  | .eps_growth_3yr => r.eps_growth_3yr
  | .eps_growth_5yr => r.eps_growth_5yr
  | .debt_equity => r.debt_equity
  | .opm => r.opm
  | .dividend_yield => r.dividend_yield
  | .pb_ratio => r.pb_ratio
  | .ev_ebitda => r.ev_ebitda

/-- Field update by metric name (used by the preprocessing step). -/
def Row.set (r : Row) : Metric → Option ℚ → Row
  | .market_cap, v => { r with market_cap := v }
  | .pe_ratio, v => { r with pe_ratio := v }
  | .roe, v => { r with roe := v }
  | .roce, v => { r with roce := v }
  | .sales_growth_3yr, v => { r with sales_growth_3yr := v }
  | .sales_growth_5yr, v => { r with sales_growth_5yr := v }
  | .pat, v => { r with pat := v }
  | .profit_growth_3yr, v => { r with profit_growth_3yr := v }
  | .profit_growth_5yr, v => { r with profit_growth_5yr := v }
  | .fcf_3yr, v => { r with fcf_3yr := v }
  | .fcf_5yr, v => { r with fcf_5yr := v }
  | .fcf, v => { r with fcf := v }
  | .peg, v => { r with peg := v }
  | .return_1yr, v => { r with return_1yr := v }
  | .asset_turnover, v => { r with asset_turnover := v }
  | .cmp_sales, v => { r with cmp_sales := v }
  | .eps_growth_3yr, v => { r with eps_growth_3yr := v }
  | .eps_growth_5yr, v => { r with eps_growth_5yr := v }
  | .debt_equity, v => { r with debt_equity := v }
  | .opm, v => { r with opm := v }
  | .dividend_yield, v => { r with dividend_yield := v }
  | .pb_ratio, v => { r with pb_ratio := v }
  | .ev_ebitda, v => { r with ev_ebitda := v }

/-! ## Philosophy registry (`PHILOSOPHIES` in `ranking.py`) -/

/-- The six philosophy weight tables, keyed by philosophy id, entries in the
Python dict's insertion order, weights exactly as in the source. -/
def PHILOSOPHIES : List (String × List (Metric × ℚ)) :=
  [("buffett",
    [(.fcf, 28/100), (.roe, 20/100), (.roce, 16/100), (.pe_ratio, 8/100),
     (.debt_equity, 14/100), (.opm, 10/100),
     (.profit_growth_3yr, 3/100), (.sales_growth_5yr, 1/100)]),
   ("lynch",
    [(.peg, 25/100), (.profit_growth_3yr, 18/100), (.eps_growth_3yr, 15/100),
     (.roe, 12/100), (.fcf, 12/100),
     (.roce, 8/100), (.debt_equity, 8/100), (.pe_ratio, 2/100)]),
   ("growth",
    [(.profit_growth_5yr, 22/100), (.sales_growth_5yr, 18/100),
     (.eps_growth_3yr, 15/100), (.roce, 15/100),
     (.fcf, 12/100), (.roe, 10/100), (.opm, 8/100)]),
   ("value",
    [(.pe_ratio, 28/100), (.debt_equity, 20/100), (.fcf, 18/100),
     (.roe, 14/100), (.roce, 12/100),
     (.dividend_yield, 5/100), (.profit_growth_3yr, 3/100)]),
   ("dividend",
    [(.dividend_yield, 28/100), (.fcf, 25/100),
     (.roe, 15/100), (.debt_equity, 15/100),
     (.roce, 10/100), (.opm, 7/100)]),
   ("quality",
    [(.fcf, 30/100), (.roe, 18/100), (.roce, 15/100), (.pe_ratio, 15/100),
     (.debt_equity, 12/100), (.opm, 8/100), (.profit_growth_3yr, 2/100)])]

/-! ## Sector classification (`sector_adjustments.get_sector_from_name`,
`ranking.is_financials`) -/

/-- The default `industry_keywords` table of `get_sector_from_name`, in the
Python dict's insertion order. -/
def industryKeywords : List (String × List String) :=
  [("IT", ["tech", "software", "infotech", "systems", "solutions", "technologies"]),
   ("Banking", ["bank", "finance", "nbfc", "financial", "capital", "securities"]),
   ("Pharma", ["pharma", "drug", "biotech", "healthcare", "medical", "lab"]),
   ("Manufacturing", ["industries", "manufacturing", "steel", "cement", "chemicals"]),
   ("Telecom", ["telecom", "communications", "wireless", "broadband"]),
   ("RealEstate", ["realty", "properties", "construction", "builders"]),
   ("FMCG", ["consumer", "foods", "beverages", "fmcg"]),
   ("Auto", ["auto", "motors", "vehicles", "automotive"]),
   ("Energy", ["power", "energy", "oil", "gas", "petroleum"])]

/-- `get_sector_from_name(company_name)`: first sector (in table order) one of
whose keywords occurs in the lower-cased company name, else `"General"`. -/
def get_sector_from_name (company_name : String) : String :=
  let low := lowerStr company_name
  match industryKeywords.find? (fun p => p.2.any fun k => containsCL low k.data) with
  | some p => p.1
  | none => "General"

/-- Keywords that mark a sector string as financial inside `is_financials`. -/
def financialsSectorKeywords : List String :=
  ["bank", "nbfc", "finance", "financial", "insurance", "hfc",
   "housing finance", "brokerage"]

/-- Company-name keywords of the final heuristic of `is_financials`. -/
def financialsNameKeywords : List String :=
  [" bank", "bank ", "nbfc", "finance", "finserv", "fin. ", "fintech",
   "lending", "microfinance", "nbfcs", "housing finance", "hfc",
   "insurance", "mfi"]

/-- `is_financials(row)`: mapping lookup by symbol, then by name, then the
sector-utils detection, then the name-keyword heuristic.  `finNames` and
`finSymbols` are the (pre-lowered, pre-stripped) keys and values of the
Banking/NBFC mapping file, `[]` when the file is unavailable. -/
def is_financials (finNames finSymbols : List (List Char)) (row : Row) : Bool :=
  let sym := pyStripLower row.symbol
  if !sym.isEmpty && finSymbols.contains sym then true
  else
    let nm := pyStripLower row.name
    if !nm.isEmpty && finNames.contains nm then true
    else
      let sector := get_sector_from_name row.name
      if sector ≠ "" &&
          financialsSectorKeywords.any (fun k => containsCL (lowerStr sector) k.data) then
        true
      else
        financialsNameKeywords.any fun k => containsCL (lowerStr row.name) k.data

/-! ## Normalization (`ranking.normalize_score`) -/

/-- `normalize_score(value, min_val, max_val, inverse)`: min–max scaling of a
value to 0–100, clamped; `NaN` input (`none`) or a degenerate column yields
the neutral 50. -/
def normalize_score (value : Option ℚ) (min_val max_val : ℚ) (inverse : Bool) : ℚ :=
  match value with
  | none => 50
  | some v =>
    if max_val = min_val then 50
    else
      let normalized :=
        if inverse then 100 - (v - min_val) / (max_val - min_val) * 100
        else (v - min_val) / (max_val - min_val) * 100
      pyMax 0 (pyMin 100 normalized)

/-! ## Quality assessors (`assess_quality_score`, `assess_cash_flow_quality`,
`assess_valuation_reasonableness`) -/

/-- `assess_quality_score(row)`: red/yellow flag discount, multiplicative ROE
bonus capped at +60%, clamped to `[0.5, 1.5]`. -/
def assess_quality_score (row : Row) : ℚ :=
  let red_flags : ℕ :=
    (if testO row.roe (· < 5) then 1 else 0) +
    (if testO row.debt_equity (· > 2) then 1 else 0) +
    (if testO row.fcf (· < -100) then 1 else 0)
  let yellow_flags : ℕ :=
    (if testO row.roe (fun v => 5 ≤ v ∧ v < 12) then 1 else 0) +
    (if testO row.peg (· > 2) then 1 else 0) +
    (if testO row.debt_equity (fun v => 1 < v ∧ v ≤ 3/2) then 1 else 0)
  let quality_score : ℚ := 1 - (red_flags : ℚ) * (15/100) - (yellow_flags : ℚ) * (5/100)
  let quality_score :=
    match row.roe with
    | some v =>
      if v > 10 then quality_score * (1 + pyMin ((v - 10) / 40) (6/10)) else quality_score
    | none => quality_score
  pyMax (1/2) (pyMin (3/2) quality_score)

/-- `assess_cash_flow_quality(row)`: cash-flow quality multiplier, clamped to
`[0.7, 1.2]`. -/
def assess_cash_flow_quality (row : Row) : ℚ :=
  let quality : ℚ := 1
  let quality :=
    match row.fcf with
    | some f =>
      if f > 0 then
        let q := quality + 5/100
        let q :=
          match row.pat with
          | some p =>
            if p > 0 then
              if f / p > 8/10 then q + 10/100
              else if f / p > 5/10 then q + 5/100
              else q
            else q
          | none => q
        match row.fcf_3yr, row.fcf_5yr with
        | some f3, some f5 => if f3 > 0 ∧ f5 > 0 then q + 5/100 else q
        | _, _ => q
      else quality - 10/100
    | none => quality - 10/100
  let quality :=
    match row.asset_turnover with
    | some a => if a > 1 then quality + 5/100 else quality
    | none => quality
  pyMax (7/10) (pyMin (12/10) quality)

/-- `assess_valuation_reasonableness(row)['score']`: valuation multiplier,
clamped to `[0.6, 1.3]` (the accompanying warning strings are display-only
and omitted). -/
def assess_valuation_reasonableness (row : Row) : ℚ :=
  let score : ℚ := 1
  let score :=
    match row.pe_ratio, row.profit_growth_3yr with
    | some pe, some g =>
      if g > 0 then
        let implied_peg := pe / g
        if implied_peg < 5/10 then score + 15/100
        else if implied_peg < 1 then score + 10/100
        else if implied_peg > 3 then score - 20/100
        else if implied_peg > 2 then score - 10/100
        else score
      else score
    | _, _ => score
  let score :=
    match row.pe_ratio, row.roe with
    | some pe, some r =>
      if r > 25 ∧ pe < 30 then score + 10/100
      else if r < 15 ∧ pe > 25 then score - 15/100
      else score
    | _, _ => score
  let score :=
    match row.fcf, row.market_cap with
    | some f, some m =>
      if m > 0 then
        let fcf_yield := f / m * 100
        if fcf_yield > 8 then score + 10/100
        else if fcf_yield > 5 then score + 5/100
        else if fcf_yield < 0 then score - 15/100
        else score
      else score
    | _, _ => score
  let score :=
    match row.cmp_sales, row.opm with
    | some cs, some o => if cs > 10 ∧ o < 15 then score - 10/100 else score
    | _, _ => score
  pyMax (6/10) (pyMin (13/10) score)

/-! ## Risk penalties (`calculate_risk_penalties`) -/

/-- Keys of the penalty dictionary returned by `calculate_risk_penalties`. -/
inductive PenaltyKey
  | negative_fcf | extreme_pe | high_pe | high_debt | moderate_debt
  | very_low_roe | low_roe | moderate_roe | low_roce | moderate_roce
  | high_peg | low_roe_high_fcf | low_roe_negative_growth | low_fcf_relative
  | moderate_pe | multiple_red_flags | extreme_volatility | high_volatility
  deriving DecidableEq

/-- `calculate_risk_penalties(row, fcf_dq_mode)`: association list of penalty
reasons to fractions, in the Python dict's insertion order.  Note that the
`fcf_dq_mode` argument is never consulted by the source body. -/
def calculate_risk_penalties (finNames finSymbols : List (List Char)) (row : Row)
    (fcf_dq_mode : String) : List (PenaltyKey × ℚ) :=
  let is_fin := is_financials finNames finSymbols row
  let p_fcf : List (PenaltyKey × ℚ) :=
    match row.fcf with
    | some f =>
      if f < 0 then
        if !is_fin then [(.negative_fcf, 40/100)] else [(.negative_fcf, 10/100)]
      else []
    | none => []
  let p_pe : List (PenaltyKey × ℚ) :=
    match row.pe_ratio with
    | some p =>
      if p > 100 then [(.extreme_pe, 25/100)]
      else if p > 50 then [(.high_pe, 15/100)]
      else []
    | none => []
  let p_debt : List (PenaltyKey × ℚ) :=
    match row.debt_equity with
    | some d =>
      if !is_fin then
        if d > 3/2 then [(.high_debt, 20/100)]
        else if d > 1 then [(.moderate_debt, 10/100)]
        else []
      else
        if d > 5 then [(.high_debt, 15/100)]
        else if d > 3 then [(.moderate_debt, 5/100)]
        else []
    | none => []
  let p_roe : List (PenaltyKey × ℚ) :=
    match row.roe with
    | some r =>
      if r < 8 then [(.very_low_roe, 30/100)]
      else if r < 10 then [(.low_roe, 20/100)]
      else if r < 12 then [(.moderate_roe, 10/100)]
      else []
    | none => []
  let p_roce : List (PenaltyKey × ℚ) :=
    match row.roce with
    | some c =>
      if c < 12 then [(.low_roce, 10/100)]
      else if c < 15 then [(.moderate_roce, 5/100)]
      else []
    | none => []
  let p_peg : List (PenaltyKey × ℚ) :=
    match row.peg with
    | some g => if g > 2 then [(.high_peg, 10/100)] else []
    | none => []
  let p_roe_fcf : List (PenaltyKey × ℚ) :=
    match row.roe, row.fcf, row.profit_growth_3yr with
    | some r, some f, some g =>
      if r < 8 ∧ g < 0 then
        if f > 1000 ∧ (row.debt_equity.getD 1 < 3/10) then
          [(.low_roe_high_fcf, 20/100)]
        else
          [(.low_roe_negative_growth, 50/100)]
      else []
    | _, _, _ => []
  let p_fcf_rel : List (PenaltyKey × ℚ) :=
    match row.fcf, row.market_cap with
    | some f, some m =>
      if !is_fin ∧ 0 < f ∧ f < 100 ∧ m > 1000 then [(.low_fcf_relative, 10/100)]
      else []
    | _, _ => []
  let p_mod_pe : List (PenaltyKey × ℚ) :=
    match row.pe_ratio with
    | some p => if 25 < p ∧ p ≤ 50 then [(.moderate_pe, 5/100)] else []
    | none => []
  let red_flags : ℕ :=
    (if row.roe.getD 100 < 10 then 1 else 0) +
    (if row.profit_growth_3yr.getD 100 < 0 then 1 else 0) +
    (if !is_fin ∧ row.fcf.getD 1000 < 100 ∧ row.market_cap.getD 0 > 1000 then 1 else 0) +
    (if row.debt_equity.getD 0 > 1 then 1 else 0)
  let p_compound : List (PenaltyKey × ℚ) :=
    if red_flags ≥ 2 then [(.multiple_red_flags, (10/100) * (red_flags : ℚ))] else []
  let p_vol : List (PenaltyKey × ℚ) :=
    if testO row.return_1yr (fun r => pyAbs r > 1000) then [(.extreme_volatility, 20/100)]
    else if testO row.return_1yr (fun r => pyAbs r > 500) then [(.high_volatility, 10/100)]
    else []
  p_fcf ++ p_pe ++ p_debt ++ p_roe ++ p_roce ++ p_peg ++ p_roe_fcf ++
    p_fcf_rel ++ p_mod_pe ++ p_compound ++ p_vol

/-- Sum of all penalty fractions of a row (`sum(penalties.values())`). -/
def total_penalty (finNames finSymbols : List (List Char)) (row : Row)
    (fcf_dq_mode : String) : ℚ :=
  ((calculate_risk_penalties finNames finSymbols row fcf_dq_mode).map Prod.snd).sum

/-! ## Disqualification gate (`should_disqualify`) -/

/-- The reason strings returned by `should_disqualify`, with the numeric
payloads that the Python f-strings interpolate. -/
inductive DQReason
  | massiveCashBurn (fcf : ℚ)
  | extremePE (pe : ℚ)
  | absurdPE (pe : ℚ)
  | negativeFcfHighDebt
  | negativeROE (roe : ℚ)
  | minimalFcf (fcf market_cap : ℚ)
  | extremeVolatility
  deriving DecidableEq

/-- `should_disqualify(row, fcf_dq_mode)`: hard exclusion rules, evaluated in
source order, first match wins.  FCF-based rules are gated by `fcf_dq_mode`:
they apply to financial rows only under `global_on` and to non-financial rows
under `financials_only_off` or `global_on`. -/
def should_disqualify (finNames finSymbols : List (List Char)) (row : Row)
    (fcf_dq_mode : String) : Bool × Option DQReason :=
  let is_fin := is_financials finNames finSymbols row
  let apply_fcf_dq_for_fin := fcf_dq_mode == "global_on"
  let apply_fcf_dq_for_nonfin :=
    fcf_dq_mode == "financials_only_off" || fcf_dq_mode == "global_on"
  let fcf_gate := (is_fin && apply_fcf_dq_for_fin) || (!is_fin && apply_fcf_dq_for_nonfin)
  if testO row.fcf (· < -500) && fcf_gate then
    (true, some (.massiveCashBurn (row.fcf.getD 0)))
  else if testO row.pe_ratio (· > 100) then
    (true, some (.extremePE (row.pe_ratio.getD 0)))
  else if testO row.pe_ratio (· > 500) then
    (true, some (.absurdPE (row.pe_ratio.getD 0)))
  else if (testO row.fcf (· < -100) && testO row.debt_equity (· > 2)) && fcf_gate then
    (true, some .negativeFcfHighDebt)
  else if testO row.roe (· < 0) then
    (true, some (.negativeROE (row.roe.getD 0)))
  else if ((match row.fcf, row.market_cap with
            | some f, some m =>
              decide (0 < f) && decide (f < 10) && decide (m > 1000) &&
                decide (f / m * 100 < 5/10)
            | _, _ => false) && fcf_gate) then
    (true, some (.minimalFcf (row.fcf.getD 0) (row.market_cap.getD 0)))
  else if (match row.return_1yr, row.fcf, row.roe with
           | some rt, some f, some r =>
             decide (pyAbs rt > 2000) && decide (f < 0) && decide (r < 15)
           | _, _, _ => false) then
    (true, some .extremeVolatility)
  else
    (false, none)

/-! ## Composite score (`calculate_composite_score`) -/

/-- The weighted sum `Σ normalized_metric × weight` over the metrics of the
weight table whose normalized column exists. -/
def weighted_sum (weights : List (Metric × ℚ)) (normRow : Metric → Option ℚ) : ℚ :=
  weights.foldl
    (fun acc mw =>
      match normRow mw.1 with
      | some s => acc + s * mw.2
      | none => acc) 0

/-- `calculate_composite_score(row, weights, normalized_df, fcf_dq_mode)`:
weighted sum times the three quality multipliers times the penalty discount
(total penalty capped at 0.6), rounded to one decimal. -/
def calculate_composite_score (finNames finSymbols : List (List Char)) (row : Row)
    (weights : List (Metric × ℚ)) (normRow : Metric → Option ℚ)
    (fcf_dq_mode : String) : ℚ :=
  let score := weighted_sum weights normRow
  let score := score * assess_quality_score row
  let score := score * assess_cash_flow_quality row
  let score := score * assess_valuation_reasonableness row
  let penalties := calculate_risk_penalties finNames finSymbols row fcf_dq_mode
  let tp := (penalties.map Prod.snd).sum
  let score := score * (1 - pyMin tp (6/10))
  round1 score

/-! ## Sector benchmarks and adjustment (`sector_adjustments.py`) -/

/-- The numeric fields of one `SECTOR_BENCHMARKS` entry that
`adjust_score_for_sector` reads. -/
structure SectorBenchmark where
  roe_threshold : ℚ
  roce_threshold : Option ℚ
  debt_equity_norm : ℚ
  opm_norm : ℚ
  debt_penalty_multiplier : Option ℚ
  fcf_weight_multiplier : Option ℚ
  deriving DecidableEq

/-- `SECTOR_BENCHMARKS`, keyed by sector tag. -/
def SECTOR_BENCHMARKS : List (String × SectorBenchmark) :=
  [("IT", ⟨20, some 25, 5/10, 20, some (15/10), some (13/10)⟩),
   ("Banking", ⟨12, none, 5, 40, some (1/10), none⟩),
   ("Pharma", ⟨15, some 18, 8/10, 20, none, none⟩),
   ("Manufacturing", ⟨12, some 15, 15/10, 10, none, none⟩),
   ("Telecom", ⟨8, some 10, 25/10, 30, none, none⟩),
   ("RealEstate", ⟨8, some 10, 2, 25, none, none⟩),
   ("FMCG", ⟨18, some 25, 5/10, 15, none, none⟩),
   ("Auto", ⟨12, some 15, 12/10, 8, none, none⟩),
   ("Energy", ⟨10, some 12, 2, 12, none, none⟩),
   ("Healthcare", ⟨15, some 18, 1, 18, none, none⟩)]

/-- `adjust_score_for_sector(base_score, company_data, sector, penalties)`:
returns `(adjusted_score, sector_adjustment_pct)`.  An unknown sector leaves
the score untouched.  The debt branch of the source only rewrites the
caller's penalty dict (which the caller discards) and appends insight
strings, so it has no effect on the returned score and is omitted; the
multiplier accumulates the FCF bonus, the capped ROE premium and the
exceptional-margin bonus exactly as in the source. -/
def adjust_score_for_sector (base_score : ℚ) (row : Row) (sector : String) : ℚ × ℚ :=
  match SECTOR_BENCHMARKS.lookup sector with
  | none => (base_score, 0)
  | some b =>
    let mult : ℚ := 1
    let mult :=
      match row.fcf, b.fcf_weight_multiplier with
      | some f, some fwm => if f > 0 then mult + (fwm - 1) * (5/100) else mult
      | _, _ => mult
    let mult :=
      match row.roe with
      | some r =>
        if r > b.roe_threshold then
          mult + pyMin ((r - b.roe_threshold) / b.roe_threshold * (10/100)) (15/100)
        else mult
      | none => mult
    let mult :=
      match row.opm with
      | some o => if o > b.opm_norm * (12/10) then mult + 5/100 else mult
      | none => mult
    (round1 (base_score * mult), round1 ((mult - 1) * 100))

/-! ## Investment tiers (`investment_tiers.classify_investment_tier`) -/

/-- `classify_investment_tier(row)`: absolute-threshold tiers, evaluated
top-down, with the source's `.get` defaults for absent columns.  Returns
`(tier, tier_name, tier_action)`. -/
def classify_investment_tier (row : Row) : ℕ × String × String :=
  let roe := row.roe.getD 0
  let roce := row.roce.getD 0
  let pe_ratio := row.pe_ratio.getD 999
  let fcf := row.fcf.getD 0
  let debt_equity := row.debt_equity.getD 999
  let profit_growth := row.profit_growth_3yr.getD 0
  if roe > 20 ∧ roce > 20 ∧ pe_ratio < 25 ∧ fcf > 500 ∧ debt_equity < 5/10 then
    (1, "CORE PORTFOLIO", "BUY / HOLD 5+ years")
  else if roe > 15 ∧ roce > 15 ∧ pe_ratio < 35 ∧ fcf > 100 ∧ debt_equity < 1 then
    (2, "QUALITY ADDITIONS", "HOLD / BUY on dips")
  else if (roe > 12 ∨ (fcf > 1000 ∧ profit_growth > 0)) ∧ debt_equity < 15/10 then
    (3, "SPECIALIZED PLAYS", "HOLD / RESEARCH")
  else
    (4, "AVOID", "EXCLUDE from portfolio")

/-! ## Sorting (pandas `DataFrame.sort_values(by, ascending=False)`)

pandas computes a descending sort as `nargsort`: reverse the column, take an
ascending numpy argsort, and reverse the resulting indexer.  The source
passes no `kind`, so numpy uses its default `quicksort` (introsort), which
pandas documents as NOT stable: the relative order of rows with equal keys
is an implementation detail of introsort's partitioning (it coincides with
insertion-sort order only on small partitions).  The embedding below
therefore substitutes a concrete deterministic sort (insertion sort inside
the same reversal structure); the theorems proved through it use only facts
that hold for EVERY descending-sorted permutation of the survivors —
membership, length, emptiness — never the tie order, which the program does
not guarantee. -/

/-- Stable insertion into an ascending-by-key list. -/
def orderedInsertLe (key : α → ℚ) (a : α) : List α → List α
  | [] => [a]
  | b :: l => if key a ≤ key b then a :: b :: l else b :: orderedInsertLe key a l

/-- Stable ascending insertion sort by key. -/
def insertionSortLe (key : α → ℚ) : List α → List α
  | [] => []
  | b :: l => orderedInsertLe key b (insertionSortLe key l)

/-- pandas descending sort: reverse, stable ascending sort, reverse. -/
def pandasSortDesc (key : α → ℚ) (l : List α) : List α :=
  (insertionSortLe key l.reverse).reverse

/-! ## Preprocessing (`analyze_rankings`, numeric conversion and median fill) -/

/-- The modelled subset of `numeric_cols`, in source order. -/
def numeric_cols : List Metric :=
  [.market_cap, .pe_ratio, .roe, .roce,
   .sales_growth_3yr, .sales_growth_5yr, .pat,
   .profit_growth_3yr, .profit_growth_5yr,
   .fcf_3yr, .fcf_5yr, .fcf, .peg, .return_1yr,
   .asset_turnover, .cmp_sales,
   .eps_growth_3yr, .eps_growth_5yr,
   .debt_equity, .opm, .dividend_yield,
   .pb_ratio, .ev_ebitda]

/-- `inverse_metrics`: columns where lower is better (modelled subset). -/
def inverse_metrics : List Metric :=
  [.debt_equity, .pe_ratio, .peg, .cmp_sales, .pb_ratio, .ev_ebitda]

/-- An uploaded table after column mapping: the set of metric columns the
file provides, and one (possibly sparse) row per company. -/
structure Table where
  cols : List Metric
  rows : List Row

/-- pandas `Series.median()` of a nonempty list of rationals. -/
def median (l : List ℚ) : ℚ :=
  let s := insertionSortLe id l
  let n := s.length
  if n % 2 = 1 then s.getD (n / 2) 0
  else (s.getD (n / 2 - 1) 0 + s.getD (n / 2) 0) / 2

/-- `df[col].fillna(fill_value)` with `fill_value` the column median (0 when
the whole column is missing). -/
def fillColumn (vals : List (Option ℚ)) : List ℚ :=
  let present := vals.filterMap id
  let fill := if present.isEmpty then 0 else median present
  vals.map (fun v => v.getD fill)

/-- The preprocessing loop of `analyze_rankings`: every numeric column that
the table provides is median-filled (so each of its cells becomes `some _`);
columns the table does not provide are absent from every row. -/
def fillTable (t : Table) : List Row :=
  numeric_cols.foldl
    (fun rows m =>
      if t.cols.contains m then
        let filled := fillColumn (rows.map (fun r => r.get m))
        (rows.zip filled).map (fun rf => rf.1.set m (some rf.2))
      else
        rows.map (fun r => r.set m none))
    t.rows

/-! ## Normalized table and pipeline -/

/-- Present values of one column of the filled table. -/
def colValues (rows : List Row) (m : Metric) : List ℚ :=
  rows.filterMap (fun r => r.get m)

/-- Minimum of a column (`df[col].min()`), 0 for the empty column (which the
pipeline never reads). -/
def colMin : List ℚ → ℚ
  | [] => 0
  | h :: t => t.foldl pyMin h

/-- Maximum of a column (`df[col].max()`). -/
def colMax : List ℚ → ℚ
  | [] => 0
  | h :: t => t.foldl pyMax h

/-- The normalized row of `r` against the filled table `rows`
(`normalized_df.loc[r]`): after median filling, a normalized column exists
exactly for the present columns, so per-row presence coincides with column
presence. -/
def normRowOf (rows : List Row) (r : Row) : Metric → Option ℚ :=
  fun m =>
    (r.get m).map fun v =>
      let vs := colValues rows m
      normalize_score (some v) (colMin vs) (colMax vs) (inverse_metrics.contains m)

/-- One surviving company in the ranked output: the row, its final
(sector-adjusted) composite score and its investment tier. -/
structure Entry where
  row : Row
  name : String
  symbol : String
  score : ℚ
  tier : ℕ
  deriving DecidableEq

/-- An `Entry` with its 1-based rank after sorting. -/
structure RankedEntry where
  rank : ℕ
  row : Row
  name : String
  symbol : String
  score : ℚ
  tier : ℕ
  deriving DecidableEq

/-- The surviving rows of the table in input order, each carrying its final
sector-adjusted composite score and tier: disqualification filter, then
composite scoring against the full-table normalized columns, sector
adjustment, and tier classification. -/
def scoredSurvivors (finNames finSymbols : List (List Char)) (t : Table)
    (weights : List (Metric × ℚ)) (fcfDQMode : String) : List Entry :=
  let filled := fillTable t
  let survivors := filled.filter
    (fun r => !(should_disqualify finNames finSymbols r fcfDQMode).1)
  survivors.map fun r =>
    let base := calculate_composite_score finNames finSymbols r weights
      (normRowOf filled r) fcfDQMode
    let sector := get_sector_from_name r.name
    let adjusted := (adjust_score_for_sector base r sector).1
    { row := r, name := r.name, symbol := r.symbol,
      score := adjusted, tier := (classify_investment_tier r).1 }

/-- `df.sort_values('composite_score', ascending=False)` over the surviving
entries. -/
def rankedEntries (finNames finSymbols : List (List Char)) (t : Table)
    (weights : List (Metric × ℚ)) (fcfDQMode : String) : List Entry :=
  pandasSortDesc (fun e => e.score) (scoredSurvivors finNames finSymbols t weights fcfDQMode)

/-- `df['rank'] = range(1, len(df)+1)` after sorting. -/
def withRanksFrom (n : ℕ) : List Entry → List RankedEntry
  | [] => []
  | e :: l =>
    { rank := n, row := e.row, name := e.name, symbol := e.symbol,
      score := e.score, tier := e.tier } :: withRanksFrom (n + 1) l

/-- The audit list of disqualified companies, each paired with its reason. -/
def disqualified_list (finNames finSymbols : List (List Char)) (t : Table)
    (fcfDQMode : String) : List (String × Option DQReason) :=
  ((fillTable t).filter (fun r => (should_disqualify finNames finSymbols r fcfDQMode).1)).map
    fun r => (r.name, (should_disqualify finNames finSymbols r fcfDQMode).2)

/-- The response rankings: top 50 of the ranked list
(`df.head(50)` in the response loop). -/
def rankings_output (finNames finSymbols : List (List Char)) (t : Table)
    (weights : List (Metric × ℚ)) (fcfDQMode : String) : List RankedEntry :=
  (withRanksFrom 1 (rankedEntries finNames finSymbols t weights fcfDQMode)).take 50

/-- The failure modes of a ranking request: the two fail-fast configuration
errors raised before the file is read, and the `ZeroDivisionError` that
`get_portfolio_recommendation` raises when no company survives
(`investable/total*100` with `total = 0`). -/
inductive AnalyzeError
  | unknownPhilosophy (p : String)
  | invalidDQMode (m : String)
  | emptyRankingDivision
  deriving DecidableEq

/-- The modelled response of `analyze_rankings`. -/
structure Report where
  rankings : List RankedEntry
  totalCompanies : ℕ
  disqualifiedCount : ℕ
  disqualifiedCompanies : List (String × Option DQReason)
  philosophy : String
  fcfDQMode : String
  deriving DecidableEq

/-- Decidable equality of `Except` results (needed to evaluate the engine on
concrete inputs). -/
instance {e a : Type _} [DecidableEq e] [DecidableEq a] :
    DecidableEq (Except e a) := fun x y =>
  match x, y with
  | .error u, .error v =>
    if h : u = v then .isTrue (by rw [h])
    else .isFalse (by intro hc; injection hc; contradiction)
  | .ok u, .ok v =>
    if h : u = v then .isTrue (by rw [h])
    else .isFalse (by intro hc; injection hc; contradiction)
  | .error _, .ok _ => .isFalse (by intro hc; injection hc)
  | .ok _, .error _ => .isFalse (by intro hc; injection hc)

/-- `valid_modes` of the endpoint. -/
def valid_modes : List String := ["financials_only_off", "global_off", "global_on"]

/-- The `analyze_rankings` orchestration: philosophy and dq-mode validation
(fail fast, before the table is touched), then preprocessing,
disqualification, scoring, sector adjustment, tier classification, sorting
and the response (I/O, caching and display-only annotations omitted). -/
def analyze (finNames finSymbols : List (List Char)) (t : Table)
    (philosophy fcfDQMode : String) : Except AnalyzeError Report :=
  match PHILOSOPHIES.lookup philosophy with
  | none => .error (.unknownPhilosophy philosophy)
  | some weights =>
    if !(valid_modes.contains fcfDQMode) then .error (.invalidDQMode fcfDQMode)
    else
      let dqList := disqualified_list finNames finSymbols t fcfDQMode
      let ranked := rankedEntries finNames finSymbols t weights fcfDQMode
      if ranked.isEmpty then .error .emptyRankingDivision
      else
        .ok { rankings := (withRanksFrom 1 ranked).take 50,
              totalCompanies := ranked.length,
              disqualifiedCount := dqList.length,
              disqualifiedCompanies := dqList,
              philosophy := philosophy,
              fcfDQMode := fcfDQMode }

/-! ## Properties of the pandas descending sort -/

theorem mem_orderedInsertLe {α : Type _} (key : α → ℚ) (a x : α) (l : List α) :
    x ∈ orderedInsertLe key a l ↔ x = a ∨ x ∈ l := by
  induction l with
  | nil => simp [orderedInsertLe]
  | cons b t ih =>
    simp only [orderedInsertLe]
    split
    · simp
    · simp only [List.mem_cons, ih]
      tauto

theorem mem_insertionSortLe {α : Type _} (key : α → ℚ) (x : α) (l : List α) :
    x ∈ insertionSortLe key l ↔ x ∈ l := by
  induction l with
  | nil => simp [insertionSortLe]
  | cons b t ih => simp [insertionSortLe, mem_orderedInsertLe, ih]

theorem mem_pandasSortDesc {α : Type _} (key : α → ℚ) (x : α) (l : List α) :
    x ∈ pandasSortDesc key l ↔ x ∈ l := by
  simp [pandasSortDesc, mem_insertionSortLe]

theorem row_mem_withRanksFrom (n : ℕ) (l : List Entry) (re : RankedEntry)
    (h : re ∈ withRanksFrom n l) : ∃ e ∈ l, re.row = e.row := by
  induction l generalizing n with
  | nil => simp [withRanksFrom] at h
  | cons e t ih =>
    rcases List.mem_cons.1 h with rfl | h2
    · exact ⟨e, List.mem_cons_self e t, rfl⟩
    · rcases ih (n + 1) h2 with ⟨x, hx, hrx⟩
      exact ⟨x, List.mem_cons_of_mem e hx, hrx⟩

/-! ## Claim theorems -/

/-- C1: for every row the composite score equals the weighted sum of its
normalized metric scores multiplied by the business-quality, cash-flow-quality
and valuation-reasonableness multipliers and by `(1 - min(Σpenalties, 0.6))`,
rounded to one decimal; the total penalty entering the final multiplier is
capped at 0.6, and when the raw penalty sum reaches 0.6 the discount factor
is exactly 0.4. -/
theorem composite_score_formula_c1 (finNames finSymbols : List (List Char)) (row : Row)
    (weights : List (Metric × ℚ)) (normRow : Metric → Option ℚ) (mode : String) :
    calculate_composite_score finNames finSymbols row weights normRow mode =
      round1 (weighted_sum weights normRow * assess_quality_score row *
        assess_cash_flow_quality row * assess_valuation_reasonableness row *
        (1 - pyMin (total_penalty finNames finSymbols row mode) (6/10))) ∧
    pyMin (total_penalty finNames finSymbols row mode) (6/10) ≤ 6/10 ∧
    (6/10 ≤ total_penalty finNames finSymbols row mode →
      calculate_composite_score finNames finSymbols row weights normRow mode =
        round1 (weighted_sum weights normRow * assess_quality_score row *
          assess_cash_flow_quality row * assess_valuation_reasonableness row *
          (4/10))) := by
  refine ⟨rfl, pyMin_le_right _ _, fun h => ?_⟩
  have h1 : calculate_composite_score finNames finSymbols row weights normRow mode =
      round1 (weighted_sum weights normRow * assess_quality_score row *
        assess_cash_flow_quality row * assess_valuation_reasonableness row *
        (1 - pyMin (total_penalty finNames finSymbols row mode) (6/10))) := rfl
  rw [h1, pyMin_eq_right h]
  norm_num

/-- The row used by the C1 witness: its raw penalties sum past 0.6, so the
cap bites. -/
def c1CapRow : Row :=
  { name := "Leverco", symbol := "LEV", roe := some 5, debt_equity := some 3,
    fcf := some (-200) }

/-- Witness for C1 at a row whose raw penalties sum past 0.6. -/
theorem composite_score_formula_c1_witness :
    ((6 : ℚ)/10 ≤ total_penalty [] [] c1CapRow "financials_only_off") ∧
    calculate_composite_score [] [] c1CapRow [] (fun _ => none) "financials_only_off" =
      round1 (weighted_sum [] (fun _ => none) * assess_quality_score c1CapRow *
        assess_cash_flow_quality c1CapRow * assess_valuation_reasonableness c1CapRow *
        (4/10)) :=
  ⟨by with_unfolding_all decide,
   (composite_score_formula_c1 [] [] c1CapRow [] (fun _ => none)
     "financials_only_off").2.2 (by with_unfolding_all decide)⟩

/-- Modelled from the spec (§4.1 Normalizer): the average-rank percentile
score the specification prescribes — `score = (rank / max_rank) * 100` where
tied values receive the mean rank of the tied group.  This definition follows
the spec's words, not the source, and exists only to compare the spec's
normalization contract with the code's `normalize_score`. -/
def spec_rank_score (vals : List ℚ) (v : ℚ) : ℚ :=
  let n : ℚ := vals.length
  let less : ℚ := vals.countP (fun w => decide (w < v))
  let ties : ℚ := vals.countP (fun w => w == v)
  (less + (ties + 1) / 2) / n * 100

/-- Counterexample to C2: the code's normalization is min–max scaling, not
average-rank percentile — in the two-value column `[10, 20]` the value 10
scores 0 under the code but 50 under the spec's rank rule — and a missing
value scores the neutral 50, not 0. -/
theorem normalization_not_rank_c2_counterexample :
    normalize_score (some 10) 10 20 false = 0 ∧
    spec_rank_score [10, 20] 10 = 50 ∧
    ((0 : ℚ) ≠ 50) ∧
    normalize_score none 10 20 false = 50 ∧
    ((50 : ℚ) ≠ 0) := by with_unfolding_all decide

/-- C2 as amended: normalization is min–max scaling — a present value in a
non-constant column scores `clamp((v - min)/(max - min) * 100)` into
`[0, 100]` (reflected for lower-is-better metrics), a missing value or a
constant column scores the neutral 50 — and in the pipeline the missing
cells of a partially-present column are first replaced by the column
median, so every surviving cell is min–max scored. -/
theorem normalization_minmax_c2 (v : Option ℚ) (mn mx : ℚ) (inv : Bool) :
    (0 ≤ normalize_score v mn mx inv ∧ normalize_score v mn mx inv ≤ 100) ∧
    (v = none → normalize_score v mn mx inv = 50) ∧
    (mn = mx → normalize_score v mn mx inv = 50) ∧
    (∀ x : ℚ, v = some x → mn ≠ mx →
      normalize_score v mn mx inv =
        pyMax 0 (pyMin 100 (if inv then 100 - (x - mn) / (mx - mn) * 100
                        else (x - mn) / (mx - mn) * 100))) ∧
    (∀ vals : List (Option ℚ), vals.filterMap id ≠ [] →
      fillColumn vals = vals.map fun c => c.getD (median (vals.filterMap id))) := by
  refine ⟨?_, fun h => ?_, fun h => ?_, fun x hx hne => ?_, fun vals h => ?_⟩
  · cases v with
    | none => simp [normalize_score]; norm_num
    | some x =>
      rw [normalize_score]
      split
      · norm_num
      · constructor
        · exact le_pyMax_left 0 _
        · exact pyMax_le (by norm_num) (le_trans (pyMin_le_left _ _) (by norm_num))
  · rw [h]; rfl
  · cases v with
    | none => rfl
    | some x => rw [normalize_score]; rw [if_pos h.symm]
  · rw [hx, normalize_score]
    rw [if_neg fun hh => hne hh.symm]
  · cases hp : vals.filterMap id with
    | nil => exact absurd hp h
    | cons a l => simp [fillColumn, hp]

/-- Witness for C2 as amended: a present value in the column `[10, 20]` is
min–max scored, and a missing cell of that column is filled with the
median 15. -/
theorem normalization_minmax_c2_witness :
    ((some (10 : ℚ)) = some 10 ∧ (10 : ℚ) ≠ 20 ∧
      [some (10 : ℚ), none, some 20].filterMap id ≠ []) ∧
    normalize_score (some 10) 10 20 false =
      pyMax 0 (pyMin 100 (((10 : ℚ) - 10) / (20 - 10) * 100)) ∧
    fillColumn [some (10 : ℚ), none, some 20] =
      [some (10 : ℚ), none, some 20].map fun c =>
        c.getD (median ([some (10 : ℚ), none, some 20].filterMap id)) :=
  ⟨⟨rfl, by norm_num, by with_unfolding_all decide⟩,
   (normalization_minmax_c2 (some 10) 10 20 false).2.2.2.1 10 rfl (by norm_num),
   (normalization_minmax_c2 (some 10) 10 20 false).2.2.2.2
     [some 10, none, some 20] (by with_unfolding_all decide)⟩

/-- C9: the penalty mapping is identical for all `dq_mode` values — the
`fcf_dq_mode` argument of `calculate_risk_penalties` is never consulted, so
the mode influences disqualification only, never penalty magnitudes. -/
theorem penalties_ignore_dq_mode_c9 (finNames finSymbols : List (List Char))
    (row : Row) (mode1 mode2 : String) :
    calculate_risk_penalties finNames finSymbols row mode1 =
      calculate_risk_penalties finNames finSymbols row mode2 := rfl

/-- Does a disqualification verdict carry the absurd-P/E reason? -/
def absurd_pe_flag (o : Option DQReason) : Bool :=
  match o with
  | some (.absurdPE _) => true
  | _ => false

/-- C10: the disqualification gate can never return the absurd-P/E
("likely data error") reason: any P/E above 500 is also above 100, and the
extreme-P/E rule is evaluated first, so the absurd-P/E branch is
unreachable. -/
theorem absurd_pe_unreachable_c10 (finNames finSymbols : List (List Char))
    (row : Row) (mode : String) :
    absurd_pe_flag (should_disqualify finNames finSymbols row mode).2 = false := by
  simp only [should_disqualify]
  split_ifs with h1 h2 h3 h4 h5 h6 h7 <;> try rfl
  exfalso
  cases hp : row.pe_ratio with
  | none => rw [hp] at h3; simp [testO] at h3
  | some p =>
    rw [hp] at h2 h3
    simp only [testO, decide_eq_true_eq] at h2 h3
    exact h2 (by linarith)

/-- The spec's Tier-1 (Core) thresholds, over the code's `.get` defaults. -/
def tier1_thresholds (r : Row) : Prop :=
  r.roe.getD 0 > 20 ∧ r.roce.getD 0 > 20 ∧ r.pe_ratio.getD 999 < 25 ∧
    r.fcf.getD 0 > 500 ∧ r.debt_equity.getD 999 < 5/10

/-- The spec's Tier-2 (Quality) thresholds. -/
def tier2_thresholds (r : Row) : Prop :=
  r.roe.getD 0 > 15 ∧ r.roce.getD 0 > 15 ∧ r.pe_ratio.getD 999 < 35 ∧
    r.fcf.getD 0 > 100 ∧ r.debt_equity.getD 999 < 1

/-- The spec's Tier-3 (Specialized) thresholds. -/
def tier3_thresholds (r : Row) : Prop :=
  (r.roe.getD 0 > 12 ∨ (r.fcf.getD 0 > 1000 ∧ r.profit_growth_3yr.getD 0 > 0)) ∧
    r.debt_equity.getD 999 < 15/10

/-- C4: tier classification is a pure function of the absolute thresholds,
evaluated top-down with first match winning (Tier 1, else Tier 2, else
Tier 3, else Tier 4), and depends on nothing but the six metrics the
thresholds read — philosophy, sector and composite score do not even appear
in its signature, and rows agreeing on those six metrics classify
identically. -/
theorem tier_classification_c4 (r r2 : Row)
    (hroe : r.roe = r2.roe) (hroce : r.roce = r2.roce)
    (hpe : r.pe_ratio = r2.pe_ratio) (hfcf : r.fcf = r2.fcf)
    (hde : r.debt_equity = r2.debt_equity)
    (hpg : r.profit_growth_3yr = r2.profit_growth_3yr) :
    ((classify_investment_tier r).1 = 1 ↔ tier1_thresholds r) ∧
    ((classify_investment_tier r).1 = 2 ↔ ¬tier1_thresholds r ∧ tier2_thresholds r) ∧
    ((classify_investment_tier r).1 = 3 ↔
      ¬tier1_thresholds r ∧ ¬tier2_thresholds r ∧ tier3_thresholds r) ∧
    ((classify_investment_tier r).1 = 4 ↔
      ¬tier1_thresholds r ∧ ¬tier2_thresholds r ∧ ¬tier3_thresholds r) ∧
    classify_investment_tier r = classify_investment_tier r2 := by
  refine ⟨?_, ?_, ?_, ?_, ?_⟩
  case _ =>
    simp only [classify_investment_tier, tier1_thresholds]
    split_ifs with h1 h2 h3 <;> simp_all
  case _ =>
    simp only [classify_investment_tier, tier1_thresholds, tier2_thresholds]
    split_ifs with h1 h2 h3 <;> simp_all
  case _ =>
    simp only [classify_investment_tier, tier1_thresholds, tier2_thresholds,
      tier3_thresholds]
    split_ifs with h1 h2 h3 <;> simp_all
  case _ =>
    simp only [classify_investment_tier, tier1_thresholds, tier2_thresholds,
      tier3_thresholds]
    split_ifs with h1 h2 h3 <;> simp_all
  case _ =>
    unfold classify_investment_tier
    rw [hroe, hroce, hpe, hfcf, hde, hpg]

/-- Witness row A for C4: meets the Tier-1 thresholds. -/
def c4RowA : Row :=
  { name := "Tierco Industries", symbol := "TIER", roe := some 25, roce := some 22,
    pe_ratio := some 18, fcf := some 800, debt_equity := some (3/10) }

/-- Witness row B for C4: same six tier metrics as row A, everything else
different. -/
def c4RowB : Row :=
  { name := "Rebrand Energy", symbol := "RBE", roe := some 25, roce := some 22,
    pe_ratio := some 18, fcf := some 800, debt_equity := some (3/10),
    opm := some 55, market_cap := some 90000 }

/-- Witness for C4: the two rows agree on the six tier metrics, classify
identically, and are Tier 1. -/
theorem tier_classification_c4_witness :
    (c4RowA.roe = c4RowB.roe ∧ c4RowA.roce = c4RowB.roce ∧
      c4RowA.pe_ratio = c4RowB.pe_ratio ∧ c4RowA.fcf = c4RowB.fcf ∧
      c4RowA.debt_equity = c4RowB.debt_equity ∧
      c4RowA.profit_growth_3yr = c4RowB.profit_growth_3yr) ∧
    classify_investment_tier c4RowA = classify_investment_tier c4RowB ∧
    (classify_investment_tier c4RowA).1 = 1 :=
  ⟨⟨rfl, rfl, rfl, rfl, rfl, rfl⟩,
   (tier_classification_c4 c4RowA c4RowB rfl rfl rfl rfl rfl rfl).2.2.2.2,
   (tier_classification_c4 c4RowA c4RowB rfl rfl rfl rfl rfl rfl).1.mpr
     (by unfold tier1_thresholds; with_unfolding_all decide)⟩

/-- C6: a row with negative FCF receives the `negative_fcf` penalty 0.40
when classified non-financial and 0.10 when classified financial, so a
financial row with negative FCF gets a strictly smaller negative-FCF penalty
than an industrial row (for every `dq_mode`, which the calculator ignores). -/
theorem sector_softening_c6 (finNames finSymbols : List (List Char)) (mode : String)
    (finRow indRow : Row) (f g : ℚ)
    (hf : finRow.fcf = some f) (hf0 : f < 0)
    (hg : indRow.fcf = some g) (hg0 : g < 0)
    (hfin : is_financials finNames finSymbols finRow = true)
    (hind : is_financials finNames finSymbols indRow = false) :
    (calculate_risk_penalties finNames finSymbols finRow mode).lookup
      PenaltyKey.negative_fcf = some (10/100) ∧
    (calculate_risk_penalties finNames finSymbols indRow mode).lookup
      PenaltyKey.negative_fcf = some (40/100) ∧
    (10/100 : ℚ) < 40/100 := by
  refine ⟨?_, ?_, by norm_num⟩
  · simp [calculate_risk_penalties, hf, hfin, hf0, List.lookup]
  · simp [calculate_risk_penalties, hg, hind, hg0, List.lookup]

/-- Witness financial row for C6 (detected financial by the name keyword
heuristic). -/
def c6FinRow : Row := { name := "State Bank", symbol := "SBIN", fcf := some (-200) }

/-- Witness industrial row for C6 (detected non-financial). -/
def c6IndRow : Row := { name := "Acme Steel", symbol := "ACME", fcf := some (-200) }

/-- Witness for C6 at FCF = −200: 0.10 for the financial row, 0.40 for the
otherwise-identical industrial row. -/
theorem sector_softening_c6_witness :
    (is_financials [] [] c6FinRow = true ∧ is_financials [] [] c6IndRow = false ∧
      ((-200 : ℚ) < 0)) ∧
    (calculate_risk_penalties [] [] c6FinRow "financials_only_off").lookup
      PenaltyKey.negative_fcf = some (10/100) ∧
    (calculate_risk_penalties [] [] c6IndRow "financials_only_off").lookup
      PenaltyKey.negative_fcf = some (40/100) :=
  ⟨⟨by with_unfolding_all decide, by with_unfolding_all decide,
    by with_unfolding_all decide⟩,
   (sector_softening_c6 [] [] "financials_only_off" c6FinRow c6IndRow (-200) (-200)
     rfl (by with_unfolding_all decide) rfl (by with_unfolding_all decide)
     (by with_unfolding_all decide) (by with_unfolding_all decide)).1,
   (sector_softening_c6 [] [] "financials_only_off" c6FinRow c6IndRow (-200) (-200)
     rfl (by with_unfolding_all decide) rfl (by with_unfolding_all decide)
     (by with_unfolding_all decide) (by with_unfolding_all decide)).2.1⟩

/-- Counterexample row for C5: non-financial, negative FCF (−50) and
D/E = 2.5 > 2, yet not disqualified — the bankruptcy-risk rule requires
FCF < −100, not merely FCF < 0. -/
def c5NegRow : Row :=
  { name := "Acme Steel", symbol := "ACME", fcf := some (-50),
    debt_equity := some (5/2) }

/-- Second row for the C5 counterexample: FCF = −600 with D/E = 3 is
disqualified by the earlier massive-cash-burn rule, not with the
bankruptcy-risk reason. -/
def c5BurnRow : Row :=
  { name := "Acme Steel", symbol := "ACME", fcf := some (-600),
    debt_equity := some 3 }

set_option maxRecDepth 4000 in
/-- Counterexample to C5: a non-financial row with negative FCF and
D/E > 2.0 under `financials_only_off` for which the gate returns false, and
a deeper-burn row for which the gate fires but with the massive-cash-burn
reason rather than the bankruptcy-risk reason. -/
theorem bankruptcy_rule_c5_counterexample :
    is_financials [] [] c5NegRow = false ∧
    c5NegRow.fcf = some (-50) ∧ ((-50 : ℚ) < 0) ∧
    c5NegRow.debt_equity = some (5/2) ∧ ((2 : ℚ) < 5/2) ∧
    should_disqualify [] [] c5NegRow "financials_only_off" = (false, none) ∧
    should_disqualify [] [] c5BurnRow "financials_only_off" =
      (true, some (DQReason.massiveCashBurn (-600))) := by
  with_unfolding_all decide

/-- C5 as amended: for every non-financial row with FCF < −100 (not merely
negative) and D/E > 2.0, provided FCF ≥ −500 and P/E (when present) is at
most 100 — so that no earlier rule fires first — the gate returns true with
the bankruptcy-risk reason under `financials_only_off` or `global_on`. -/
theorem bankruptcy_rule_c5_amended (finNames finSymbols : List (List Char)) (r : Row)
    (mode : String) (f d : ℚ)
    (hfin : is_financials finNames finSymbols r = false)
    (hmode : mode = "financials_only_off" ∨ mode = "global_on")
    (hf : r.fcf = some f) (hf1 : f < -100) (hf2 : -500 ≤ f)
    (hd : r.debt_equity = some d) (hd2 : 2 < d)
    (hpe : ∀ p : ℚ, r.pe_ratio = some p → p ≤ 100) :
    should_disqualify finNames finSymbols r mode =
      (true, some .negativeFcfHighDebt) := by
  have h1 : testO r.fcf (· < -500) = false := by
    rw [hf]; simp only [testO, decide_eq_false_iff_not, not_lt]; linarith
  have h4 : testO r.fcf (· < -100) = true := by
    rw [hf]; simp only [testO, decide_eq_true_eq]; exact hf1
  have h5 : testO r.debt_equity (· > 2) = true := by
    rw [hd]; simp only [testO, decide_eq_true_eq]; exact hd2
  have h2 : testO r.pe_ratio (· > 100) = false := by
    cases hp : r.pe_ratio with
    | none => simp [testO]
    | some p =>
      simp only [testO, decide_eq_false_iff_not, not_lt]
      exact hpe p hp
  have h3 : testO r.pe_ratio (· > 500) = false := by
    cases hp : r.pe_ratio with
    | none => simp [testO]
    | some p =>
      simp only [testO, decide_eq_false_iff_not, not_lt]
      have := hpe p hp
      linarith
  rcases hmode with rfl | rfl <;>
    simp [should_disqualify, h1, h2, h3, h4, h5, hfin]

/-- Witness row for C5 as amended: FCF −200, D/E 3, P/E column absent. -/
def c5AmendedRow : Row :=
  { name := "Acme Steel", symbol := "ACME", fcf := some (-200),
    debt_equity := some 3 }

/-- Witness for C5 as amended at FCF = −200, D/E = 3 under
`financials_only_off`. -/
theorem bankruptcy_rule_c5_amended_witness :
    (is_financials [] [] c5AmendedRow = false ∧ ((-200 : ℚ) < -100) ∧
      ((-500 : ℚ) ≤ -200) ∧ ((2 : ℚ) < 3)) ∧
    should_disqualify [] [] c5AmendedRow "financials_only_off" =
      (true, some .negativeFcfHighDebt) :=
  ⟨⟨by with_unfolding_all decide, by with_unfolding_all decide,
    by with_unfolding_all decide, by with_unfolding_all decide⟩,
   bankruptcy_rule_c5_amended [] [] c5AmendedRow "financials_only_off" (-200) 3
     (by with_unfolding_all decide) (Or.inl rfl) rfl
     (by with_unfolding_all decide) (by with_unfolding_all decide) rfl
     (by with_unfolding_all decide) (fun p hp => nomatch hp)⟩

/-- C3: a row the disqualification gate excludes is absent from the ranked
output for every weight table and mode — so it is never assigned a reported
score or tier — the audit list is exactly the gate-true rows in input order,
each contributing one `(name, reason)` entry, and the excluded row's entry is
in it. -/
theorem disqualification_precedence_c3 (finNames finSymbols : List (List Char))
    (t : Table) (weights : List (Metric × ℚ)) (mode : String) (r : Row)
    (hr : r ∈ fillTable t)
    (hdq : (should_disqualify finNames finSymbols r mode).1 = true) :
    (∀ e ∈ rankedEntries finNames finSymbols t weights mode, e.row ≠ r) ∧
    (∀ e ∈ rankings_output finNames finSymbols t weights mode, e.row ≠ r) ∧
    disqualified_list finNames finSymbols t mode =
      ((fillTable t).filter
        (fun x => (should_disqualify finNames finSymbols x mode).1)).map
        (fun x => (x.name, (should_disqualify finNames finSymbols x mode).2)) ∧
    (r.name, (should_disqualify finNames finSymbols r mode).2) ∈
      disqualified_list finNames finSymbols t mode := by
  have hsurv : ∀ e ∈ scoredSurvivors finNames finSymbols t weights mode, e.row ≠ r := by
    intro e he hc
    simp only [scoredSurvivors] at he
    rcases List.mem_map.1 he with ⟨x, hx, hex⟩
    rcases List.mem_filter.1 hx with ⟨hx1, hx2⟩
    have hrow : e.row = x := by rw [← hex]
    rw [hrow] at hc
    subst hc
    rw [hdq] at hx2
    simp at hx2
  refine ⟨?_, ?_, rfl, ?_⟩
  · intro e he
    unfold rankedEntries at he
    exact hsurv e ((mem_pandasSortDesc _ e _).1 he)
  · intro e he hc
    unfold rankings_output at he
    have he2 := List.mem_of_mem_take he
    rcases row_mem_withRanksFrom 1 _ e he2 with ⟨x, hx, hxe⟩
    unfold rankedEntries at hx
    exact hsurv x ((mem_pandasSortDesc _ x _).1 hx) (by rw [← hxe, hc])
  · unfold disqualified_list
    exact List.mem_map.2 ⟨r, List.mem_filter.2 ⟨hr, hdq⟩, rfl⟩

/-- Witness table for C3: "Alpha" has negative ROE (disqualified), "Beta"
survives. -/
def c3Table : Table :=
  { cols := [.roe],
    rows := [{ name := "Alpha", symbol := "ALP", roe := some (-5) },
             { name := "Beta", symbol := "BET", roe := some 10 }] }

/-- The disqualified row of the C3 witness table (its filled form equals its
raw form, since its one present column has no missing cell). -/
def c3AlphaRow : Row := { name := "Alpha", symbol := "ALP", roe := some (-5) }

/-- Witness for C3: Alpha is gate-true, is absent from the ranked entries
under the buffett weights, and its `(name, reason)` pair is on the audit
list. -/
theorem disqualification_precedence_c3_witness :
    (c3AlphaRow ∈ fillTable c3Table ∧
      (should_disqualify [] [] c3AlphaRow "financials_only_off").1 = true) ∧
    (∀ e ∈ rankedEntries [] [] c3Table ((PHILOSOPHIES.lookup "buffett").getD [])
      "financials_only_off", e.row ≠ c3AlphaRow) ∧
    (c3AlphaRow.name, (should_disqualify [] [] c3AlphaRow "financials_only_off").2) ∈
      disqualified_list [] [] c3Table "financials_only_off" :=
  ⟨⟨by with_unfolding_all decide, by with_unfolding_all decide⟩,
   (disqualification_precedence_c3 [] [] c3Table
     ((PHILOSOPHIES.lookup "buffett").getD []) "financials_only_off" c3AlphaRow
     (by with_unfolding_all decide) (by with_unfolding_all decide)).1,
   (disqualification_precedence_c3 [] [] c3Table
     ((PHILOSOPHIES.lookup "buffett").getD []) "financials_only_off" c3AlphaRow
     (by with_unfolding_all decide) (by with_unfolding_all decide)).2.2.2⟩

/-- C8: an unknown philosophy id fails fast with the unknown-philosophy
error for every table (before any row is touched, with no partial report);
a known philosophy with an invalid dq_mode fails fast with the
invalid-dq-mode error; and under a valid configuration the request never
fails with a configuration error — the only remaining failure is the
division-by-zero crash of the portfolio recommendation when no company
survives, which row-level data gaps do not trigger by themselves. -/
theorem config_validation_c8 (finNames finSymbols : List (List Char)) (t : Table)
    (phil mode : String) :
    (PHILOSOPHIES.lookup phil = none →
      analyze finNames finSymbols t phil mode =
        .error (.unknownPhilosophy phil)) ∧
    (∀ w, PHILOSOPHIES.lookup phil = some w → valid_modes.contains mode = false →
      analyze finNames finSymbols t phil mode = .error (.invalidDQMode mode)) ∧
    (∀ w, PHILOSOPHIES.lookup phil = some w → valid_modes.contains mode = true →
      ∀ e, analyze finNames finSymbols t phil mode = .error e →
        e = .emptyRankingDivision) := by
  refine ⟨fun h => ?_, fun w hw hm => ?_, fun w hw hm e he => ?_⟩
  · unfold analyze
    rw [h]
  · unfold analyze
    rw [hw, hm]
    rfl
  · unfold analyze at he
    rw [hw, hm] at he
    simp only [Bool.not_true, Bool.false_eq_true, if_false] at he
    split at he
    · injection he with h2
      exact h2.symm
    · exact absurd he (by simp)

/-- Witness table for C8 whose single row survives. -/
def c8OkTable : Table :=
  { cols := [.roe], rows := [{ name := "Gamma", symbol := "GAM", roe := some 12 }] }

/-- Witness table for C8 whose single row is disqualified (negative ROE), so
a valid configuration still ends in the division-by-zero crash — which is
not a configuration error. -/
def c8EmptyTable : Table :=
  { cols := [.roe], rows := [{ name := "Delta", symbol := "DEL", roe := some (-5) }] }

/-- Witness for C8: an unknown philosophy and an invalid dq_mode each fail
fast with their configuration error, and a valid configuration on the
all-disqualified table fails only with the division crash. -/
theorem config_validation_c8_witness :
    (PHILOSOPHIES.lookup "momentum" = none ∧
      valid_modes.contains "weird" = false ∧
      valid_modes.contains "financials_only_off" = true) ∧
    analyze [] [] c8OkTable "momentum" "financials_only_off" =
      .error (.unknownPhilosophy "momentum") ∧
    analyze [] [] c8OkTable "buffett" "weird" = .error (.invalidDQMode "weird") ∧
    AnalyzeError.emptyRankingDivision = AnalyzeError.emptyRankingDivision :=
  ⟨⟨by with_unfolding_all decide, by with_unfolding_all decide,
    by with_unfolding_all decide⟩,
   (config_validation_c8 [] [] c8OkTable "momentum" "financials_only_off").1
     (by with_unfolding_all decide),
   (config_validation_c8 [] [] c8OkTable "buffett" "weird").2.1
     ((PHILOSOPHIES.lookup "buffett").getD []) (by with_unfolding_all decide)
     (by with_unfolding_all decide),
   (config_validation_c8 [] [] c8EmptyTable "buffett" "financials_only_off").2.2
     ((PHILOSOPHIES.lookup "buffett").getD []) (by with_unfolding_all decide)
     (by with_unfolding_all decide) AnalyzeError.emptyRankingDivision
     (by with_unfolding_all decide)⟩

end PulseCompass
